import Mathlib

/-!
Verification of the token/cost estimator in `calculator.py`.

The Python source is shallowly embedded below:
* Python strings are `List Char`; `str.lower()` is `Char.toLower` on every
  character; Python substring containment (`kw in s`) is `seqContains`;
  `str.split()` (split on whitespace runs, dropping empty pieces) is
  `wordCount`.
* Python `int`s are `ℤ`; Python floats are modelled exactly as `ℚ`;
  the `int(...)` conversion (truncation toward zero) is `pyInt`.
* The formatting step `float(f"{x:.8f}")` rounds to 8 decimal places with
  round-half-to-even tie-breaking; it is modelled as `roundTo8`.
* `random.uniform(0.9, 1.1)` is modelled by passing the sampled factor as an
  explicit argument (`random_factor`); a run with jitter disabled corresponds
  to the factor being fixed at `1`.
* `main`'s computational core (everything between reading the prompt and
  printing) is `runSession`; the interactive UI and file persistence are
  out of scope.
-/

namespace TokenCalculator

/-- The whitespace characters recognised by Python's `str.split()` for ASCII
text: space, tab, newline, carriage return, vertical tab, form feed. -/
def pyIsSpace (c : Char) : Bool :=
  c == ' ' || c == '\t' || c == '\n' || c == '\r' || c == '\x0b' || c == '\x0c'

/-- Helper for `wordCount`: counts maximal runs of non-whitespace characters;
the flag records whether the scan is currently inside a word. -/
def countWordsAux : List Char → Bool → ℕ
  | [], _ => 0
  | c :: cs, inWord =>
    if pyIsSpace c then countWordsAux cs false
    else (if inWord then 0 else 1) + countWordsAux cs true

/-- `len(text.split())` in Python: the number of maximal whitespace-separated
words of `s`. -/
def wordCount (s : List Char) : ℕ :=
  countWordsAux s false

/-- `seqStartsWith pat s` holds when `pat` is an initial segment of `s`. -/
def seqStartsWith : List Char → List Char → Bool
  | [], _ => true
  | _ :: _, [] => false
  | p :: ps, c :: cs => p == c && seqStartsWith ps cs

/-- Python's substring containment `pat in s`: `pat` occurs contiguously
somewhere in `s`. -/
def seqContains (s pat : List Char) : Bool :=
  match s with
  | [] => pat.isEmpty
  | _ :: cs => seqStartsWith pat s || seqContains cs pat

/-- `text.lower()` for ASCII text. -/
def pyLower (s : List Char) : List Char :=
  s.map Char.toLower

/-- Python's `int(x)` applied to a float: truncation toward zero. -/
def pyInt (q : ℚ) : ℤ :=
  if 0 ≤ q then ⌊q⌋ else ⌈q⌉

/-- The `CODING_KEYWORDS` list from `calculator.py`, verbatim. -/
def CODING_KEYWORDS : List (List Char) :=
  ["code".toList, "function".toList, "script".toList, "class".toList,
   "module".toList, "package".toList, "algorithm".toList, "refactor".toList,
   "optimize".toList, "debug".toList, "compile".toList, "build".toList,
   "deploy".toList, "test".toList, "integration".toList, "unit test".toList,
   "syntax".toList, "variable".toList, "loop".toList, "recursion".toList,
   "data structure".toList, "api".toList, "endpoint".toList,
   "database".toList, "sql".toList, "json".toList, "xml".toList,
   "frontend".toList, "backend".toList, "ui".toList, "ux".toList,
   "framework".toList, "library".toList, "performance".toList,
   "scalability".toList, "architecture".toList, "ci/cd".toList,
   "pipeline".toList, "exception".toList, "error handling".toList,
   "logging".toList, "thread".toList, "concurrency".toList,
   "threading".toList, "async".toList, "await".toList, "docker".toList,
   "container".toList, "microservice".toList, "refactoring".toList,
   "optimization".toList, "version control".toList, "git".toList,
   "merge".toList, "branch".toList]

/-- A row of the `PRICING` table: USD rates per million input/output tokens. -/
structure Price where
  input_per_m : ℚ
  output_per_m : ℚ
deriving DecidableEq

/-- The `PRICING` dictionary from `calculator.py`: `dict.get` semantics
(`none` for a key that is absent). -/
def PRICING (model : String) : Option Price :=
  if model = "claude" then some ⟨3, 15⟩
  else if model = "gemini" then some ⟨5/4, 10⟩
  else none

/-- `USD_TO_EUR = 0.92` from `calculator.py`. -/
def USD_TO_EUR : ℚ := 92/100

/-- Round a rational to the nearest integer, ties to the even integer: the
rounding used by Python's fixed-point float formatting. -/
def roundHalfEven (x : ℚ) : ℤ :=
  if x - ⌊x⌋ < 1/2 then ⌊x⌋
  else if 1/2 < x - ⌊x⌋ then ⌊x⌋ + 1
  else if ⌊x⌋ % 2 = 0 then ⌊x⌋ else ⌊x⌋ + 1

/-- `float(f"{x:.8f}")`: round `x` to 8 decimal places. -/
def roundTo8 (x : ℚ) : ℚ :=
  (roundHalfEven (x * 100000000) : ℚ) / 100000000

/-- `estimate_tokens_by_chars(text)`: `max(1, math.ceil(len(text) / 4))`. -/
def estimate_tokens_by_chars (text : List Char) : ℤ :=
  max 1 ⌈(text.length : ℚ) / 4⌉

/-- `estimate_tokens_by_words(text)`: `max(1, int(len(text.split()) / 0.75))`. -/
def estimate_tokens_by_words (text : List Char) : ℤ :=
  max 1 (pyInt ((wordCount text : ℚ) / (3/4)))

/-- `estimate_input_tokens(prompt_text)`: truncated average of the two
heuristics. -/
def estimate_input_tokens (prompt_text : List Char) : ℤ :=
  pyInt (((estimate_tokens_by_chars prompt_text
      + estimate_tokens_by_words prompt_text : ℤ) : ℚ) / 2)

/-- `deduce_iterations(prompt_text, prompt_tokens)` with the per-call sample
of `random.uniform(0.9, 1.1)` passed in as `random_factor`. -/
def deduce_iterations (prompt_text : List Char) (prompt_tokens : ℤ)
    (random_factor : ℚ) : ℤ :=
  let prompt_lower := pyLower prompt_text
  let base_iterations : ℤ :=
    if prompt_tokens < 50 then 2
    else if prompt_tokens ≤ 200 then 5
    else 15
  let keyword_hits : ℕ :=
    CODING_KEYWORDS.countP (fun kw => seqContains prompt_lower kw)
  let estimated_iterations : ℤ := base_iterations + keyword_hits
  max 1 (pyInt ((estimated_iterations : ℚ) * random_factor))

/-- `estimate_output_tokens_per_iteration(prompt_text, prompt_tokens)`. -/
def estimate_output_tokens_per_iteration (prompt_text : List Char)
    (prompt_tokens : ℤ) : ℤ :=
  let keyword_hits : ℕ :=
    CODING_KEYWORDS.countP (fun kw => seqContains (pyLower prompt_text) kw)
  let quality_factor : ℚ :=
    1 + (keyword_hits : ℚ) / (max 1 (wordCount prompt_text) : ℕ)
  let multiplier : ℤ :=
    if prompt_tokens < 50 then 10
    else if prompt_tokens ≤ 200 then 8
    else 5
  pyInt ((prompt_tokens : ℚ) * (multiplier : ℚ) * quality_factor)

/-- `calculate_cost(tokens_input, tokens_output, model)`. -/
def calculate_cost (tokens_input tokens_output : ℤ) (model : String) : ℚ :=
  match PRICING model with
  | none => 0
  | some price =>
    let cost_usd : ℚ :=
      (tokens_input : ℚ) / 1000000 * price.input_per_m
        + (tokens_output : ℚ) / 1000000 * price.output_per_m
    roundTo8 (cost_usd * USD_TO_EUR)

/-- One per-provider record of `main`'s `results` dictionary. -/
structure CostResult where
  estimated_iterations : ℤ
  input_tokens_per_prompt : ℤ
  total_input_tokens : ℤ
  output_tokens_per_iteration : ℤ
  total_output_tokens : ℤ
  estimated_cost_eur : ℚ
deriving DecidableEq, Inhabited

/-- The computational core of `main` (token estimation through the `results`
dictionary), with the jitter sample passed in as `random_factor`: one
`CostResult` per selected model, sharing the token and iteration numbers. -/
def runSession (random_factor : ℚ) (models : List String)
    (prompt_text : List Char) : List (String × CostResult) :=
  let input_tokens := estimate_input_tokens prompt_text
  let iterations := deduce_iterations prompt_text input_tokens random_factor
  let output_tokens_per_iter :=
    estimate_output_tokens_per_iteration prompt_text input_tokens
  let total_output_tokens := output_tokens_per_iter * iterations
  let total_input_tokens := input_tokens * iterations
  models.map (fun m =>
    (m, { estimated_iterations := iterations
          input_tokens_per_prompt := input_tokens
          total_input_tokens := total_input_tokens
          output_tokens_per_iteration := output_tokens_per_iter
          total_output_tokens := total_output_tokens
          estimated_cost_eur :=
            calculate_cost total_input_tokens total_output_tokens m }))

/-! ### Definitions written from the specification's words, for refinement
claims.  Each is compared against the corresponding embedded source
function. -/

/-- Spec 4.2 step 1: base iteration count by prompt-token tier. -/
def spec_base_iterations (t : ℤ) : ℤ :=
  if t < 50 then 2 else if 50 ≤ t ∧ t ≤ 200 then 5 else 15

/-- Spec 4.2 step 2: number of vocabulary terms occurring as case-insensitive
substrings of the lowercased text. -/
def spec_keyword_hits (text : List Char) : ℕ :=
  CODING_KEYWORDS.countP (fun kw => seqContains (pyLower text) kw)

/-- Spec 4.2 / claim C3: `max(1, floor((base + hits) * r))`. -/
def spec_iterations (text : List Char) (t : ℤ) (r : ℚ) : ℤ :=
  max 1 ⌊((spec_base_iterations t + spec_keyword_hits text : ℤ) : ℚ) * r⌋

/-- Spec 4.3: output multiplier by prompt-token tier. -/
def spec_multiplier (t : ℤ) : ℤ :=
  if t < 50 then 10 else if 50 ≤ t ∧ t ≤ 200 then 8 else 5

/-- Spec 4.3 / claim C4: quality-adjusted output projection
`floor(t * m * (1 + hits / max(1, word_count(text))))`. -/
def spec_output_tokens (text : List Char) (t : ℤ) : ℤ :=
  ⌊(t : ℚ) * (spec_multiplier t : ℚ)
    * (1 + (spec_keyword_hits text : ℚ) / (max 1 (wordCount text) : ℕ))⌋

/-- Spec 4.4 / claim C2: raw cost converted to EUR at `0.92` and then rounded
to 8 decimal places. -/
def spec_cost (i o : ℤ) (input_rate output_rate : ℚ) : ℚ :=
  roundTo8 (((i : ℚ) / 1000000 * input_rate
    + (o : ℚ) / 1000000 * output_rate) * (92/100))

/-- Spec 4.1 / claim C9: character heuristic `max(1, ceil(len(text)/4))`. -/
def spec_char_estimate (text : List Char) : ℤ :=
  max 1 ⌈(text.length : ℚ) / 4⌉

/-- Spec 4.1 / claim C9: word heuristic `max(1, floor(word_count/0.75))`. -/
def spec_word_estimate (text : List Char) : ℤ :=
  max 1 ⌊(wordCount text : ℚ) / (3/4)⌋

/-- Spec 4.1 / claim C9: truncating integer average of the two heuristics. -/
def spec_blended_estimate (text : List Char) : ℤ :=
  (spec_char_estimate text + spec_word_estimate text) / 2

/-! ### Helper lemmas -/

/-- `int()` truncation agrees with `floor` on non-negative rationals. -/
theorem pyInt_eq_floor (q : ℚ) (h : 0 ≤ q) : pyInt q = ⌊q⌋ :=
  if_pos h

/-- The base-iteration if-chain of `deduce_iterations` matches the spec's
three-tier description. -/
theorem base_iterations_eq (t : ℤ) :
    (if t < 50 then (2 : ℤ) else if t ≤ 200 then 5 else 15)
      = spec_base_iterations t := by
  unfold spec_base_iterations
  split_ifs <;> omega

/-- The spec base iterations are at least 2. -/
theorem spec_base_iterations_ge_two (t : ℤ) : 2 ≤ spec_base_iterations t := by
  unfold spec_base_iterations
  split_ifs <;> omega

/-- The multiplier if-chain of `estimate_output_tokens_per_iteration` matches
the spec's three-tier description. -/
theorem multiplier_eq (t : ℤ) :
    (if t < 50 then (10 : ℤ) else if t ≤ 200 then 8 else 5)
      = spec_multiplier t := by
  unfold spec_multiplier
  split_ifs <;> omega

/-- Round-half-even is the identity on integers. -/
theorem roundHalfEven_intCast (n : ℤ) : roundHalfEven (n : ℚ) = n := by
  unfold roundHalfEven
  rw [Int.floor_intCast]
  norm_num

/-- Rounding to 8 decimal places fixes any integer multiple of `10 ^ (-8)`. -/
theorem roundTo8_int_div (n : ℤ) :
    roundTo8 ((n : ℚ) / 100000000) = (n : ℚ) / 100000000 := by
  unfold roundTo8
  rw [div_mul_cancel₀ _ (by norm_num : (100000000 : ℚ) ≠ 0),
    roundHalfEven_intCast]

/-- Closed form of the cost of the `claude` row: its exact EUR value is an
integer multiple of `10 ^ (-8)`, so the 8-place rounding is the identity. -/
theorem calculate_cost_claude_closed (i o : ℤ) :
    calculate_cost i o "claude" = (((3 * i + 15 * o) * 92 : ℤ) : ℚ) / 100000000 := by
  unfold calculate_cost
  rw [show PRICING "claude" = some ⟨3, 15⟩ from rfl]
  show roundTo8 _ = _
  rw [show ((i : ℚ) / 1000000 * (3 : ℚ) + (o : ℚ) / 1000000 * (15 : ℚ))
        * USD_TO_EUR = (((3 * i + 15 * o) * 92 : ℤ) : ℚ) / 100000000 by
    unfold USD_TO_EUR
    push_cast
    ring]
  exact roundTo8_int_div _

/-- Closed form of the cost of the `gemini` row. -/
theorem calculate_cost_gemini_closed (i o : ℤ) :
    calculate_cost i o "gemini" = (((115 * i + 920 * o) : ℤ) : ℚ) / 100000000 := by
  unfold calculate_cost
  rw [show PRICING "gemini" = some ⟨5/4, 10⟩ from rfl]
  show roundTo8 _ = _
  rw [show ((i : ℚ) / 1000000 * ((5 : ℚ)/4) + (o : ℚ) / 1000000 * (10 : ℚ))
        * USD_TO_EUR = (((115 * i + 920 * o) : ℤ) : ℚ) / 100000000 by
    unfold USD_TO_EUR
    push_cast
    ring]
  exact roundTo8_int_div _

/-- A model with a `PRICING` row is one of the two configured models. -/
theorem PRICING_cases (m : String) (p : Price) (h : PRICING m = some p) :
    m = "claude" ∨ m = "gemini" := by
  by_cases hc : m = "claude"
  · exact Or.inl hc
  · by_cases hg : m = "gemini"
    · exact Or.inr hg
    · unfold PRICING at h
      rw [if_neg hc, if_neg hg] at h
      exact absurd h (by simp)

/-! ### Claim theorems -/

/-- C1: With jitter disabled, the iteration predictor is deterministic: two
calls of `deduce_iterations` on the same prompt text and prompt-token count
return the same output.  Jitter disabled means the per-call multiplicative
factor is fixed at `1` in both calls. -/
theorem deduce_iterations_deterministic_without_jitter
    (text : List Char) (t : ℤ) (r₁ r₂ : ℚ) (h₁ : r₁ = 1) (h₂ : r₂ = 1) :
    deduce_iterations text t r₁ = deduce_iterations text t r₂ := by
  subst h₁
  subst h₂
  rfl

/-- Witness for C1 at the prompt "hi" with prompt-token count 3. -/
theorem deduce_iterations_deterministic_without_jitter_witness :
    (1 : ℚ) = 1 ∧
      deduce_iterations ("hi".toList) 3 1 = deduce_iterations ("hi".toList) 3 1 :=
  ⟨rfl, deduce_iterations_deterministic_without_jitter ("hi".toList) 3 1 1 rfl rfl⟩

/-- C6: For any token counts and any model key absent from the price table,
`calculate_cost` returns exactly 0 (the function is total, so no exception
is possible). -/
theorem calculate_cost_unknown_model_zero
    (i o : ℤ) (m : String) (hm : PRICING m = none) :
    calculate_cost i o m = 0 := by
  unfold calculate_cost
  rw [hm]

/-- Witness for C6 at the unknown key "mistral". -/
theorem calculate_cost_unknown_model_zero_witness :
    PRICING "mistral" = none ∧ calculate_cost 5 7 "mistral" = 0 :=
  ⟨rfl, calculate_cost_unknown_model_zero 5 7 "mistral" rfl⟩

/-- C8: Every token-estimation heuristic — character-based, word-based and
blended — returns an integer ≥ 1 on every string, the empty and
whitespace-only strings included. -/
theorem token_heuristics_ge_one (text : List Char) :
    1 ≤ estimate_tokens_by_chars text ∧ 1 ≤ estimate_tokens_by_words text ∧
      1 ≤ estimate_input_tokens text := by
  refine ⟨le_max_left 1 _, le_max_left 1 _, ?_⟩
  unfold estimate_input_tokens
  have ha : 1 ≤ estimate_tokens_by_chars text := le_max_left 1 _
  have hb : 1 ≤ estimate_tokens_by_words text := le_max_left 1 _
  have hq : (1 : ℚ) ≤ ((estimate_tokens_by_chars text
      + estimate_tokens_by_words text : ℤ) : ℚ) / 2 := by
    rw [le_div_iff₀ (by norm_num : (0 : ℚ) < 2)]
    have : (2 : ℤ) ≤ estimate_tokens_by_chars text
        + estimate_tokens_by_words text := by omega
    exact_mod_cast this
  rw [pyInt_eq_floor _ (le_trans (by norm_num) hq)]
  exact Int.le_floor.mpr (by exact_mod_cast hq)

/-- C10: Provider lookup is an exact, case-sensitive string match: the key
"Claude" is not in the table and yields cost 0 for every token count, while
the lowercase key "claude" is priced and yields a nonzero cost. -/
theorem pricing_lookup_case_sensitive :
    (∀ i o : ℤ, calculate_cost i o "Claude" = 0) ∧
      PRICING "Claude" = none ∧ PRICING "claude" = some ⟨3, 15⟩ ∧
      calculate_cost 1000000 1000000 "claude" = 414/25 := by
  refine ⟨fun i o => ?_, rfl, rfl, ?_⟩
  · unfold calculate_cost
    rw [show PRICING "Claude" = none from rfl]
  · rw [calculate_cost_claude_closed]
    norm_num

/-- C2: For non-negative token counts and a model present in the price table,
`calculate_cost` returns the raw per-million cost converted at
`USD_TO_EUR = 0.92` and then rounded to 8 decimal places (conversion before
rounding). -/
theorem calculate_cost_formula_spec (i o : ℤ) (m : String) (p : Price)
    (hi : 0 ≤ i) (ho : 0 ≤ o) (hm : PRICING m = some p) :
    calculate_cost i o m = spec_cost i o p.input_per_m p.output_per_m := by
  unfold calculate_cost spec_cost
  rw [hm]
  rfl

/-- Witness for C2 at `1` input token, `2` output tokens, model "claude". -/
theorem calculate_cost_formula_spec_witness :
    (0 ≤ (1 : ℤ) ∧ 0 ≤ (2 : ℤ) ∧ PRICING "claude" = some ⟨3, 15⟩) ∧
      calculate_cost 1 2 "claude" = spec_cost 1 2 3 15 :=
  ⟨⟨by decide, by decide, rfl⟩,
    calculate_cost_formula_spec 1 2 "claude" ⟨3, 15⟩ (by decide) (by decide) rfl⟩

/-- C3: For every prompt text, prompt-token count and jitter sample
`r ∈ [0.9, 1.1]`, `deduce_iterations` returns
`max(1, floor((base + hits) * r))` with the spec's tier table and keyword-hit
count, and the result is at least 1. -/
theorem deduce_iterations_matches_spec (text : List Char) (t : ℤ) (r : ℚ)
    (h₁ : 9/10 ≤ r) (h₂ : r ≤ 11/10) :
    deduce_iterations text t r = spec_iterations text t r ∧
      1 ≤ deduce_iterations text t r := by
  have hb := spec_base_iterations_ge_two t
  constructor
  · simp only [deduce_iterations, spec_iterations, spec_keyword_hits]
    rw [base_iterations_eq, pyInt_eq_floor]
    exact mul_nonneg
      (by
        exact_mod_cast (by omega : (0 : ℤ) ≤ spec_base_iterations t
          + (CODING_KEYWORDS.countP (fun kw => seqContains (pyLower text) kw) : ℤ)))
      (le_trans (by norm_num) h₁)
  · simp only [deduce_iterations]
    exact le_max_left 1 _

/-- Witness for C3 at the prompt "hi", prompt-token count 1, jitter sample 1. -/
theorem deduce_iterations_matches_spec_witness :
    (9/10 ≤ (1 : ℚ) ∧ (1 : ℚ) ≤ 11/10) ∧
      (deduce_iterations ("hi".toList) 1 1 = spec_iterations ("hi".toList) 1 1 ∧
        1 ≤ deduce_iterations ("hi".toList) 1 1) :=
  ⟨⟨by norm_num, by norm_num⟩,
    deduce_iterations_matches_spec ("hi".toList) 1 1 (by norm_num) (by norm_num)⟩

/-- C4: In quality-adjusted mode, for a non-negative prompt-token count the
output projector returns
`floor(t * multiplier * (1 + hits / max(1, word_count(text))))` with the
spec's tier table, and the result is non-negative. -/
theorem estimate_output_tokens_matches_spec (text : List Char) (t : ℤ)
    (h : 0 ≤ t) :
    estimate_output_tokens_per_iteration text t = spec_output_tokens text t ∧
      0 ≤ estimate_output_tokens_per_iteration text t := by
  have hm : (0 : ℤ) ≤ spec_multiplier t := by
    unfold spec_multiplier
    split_ifs <;> omega
  have hq : (0 : ℚ) ≤ (t : ℚ) * (spec_multiplier t : ℚ)
      * (1 + (spec_keyword_hits text : ℚ) / (max 1 (wordCount text) : ℕ)) := by
    apply mul_nonneg (mul_nonneg (by exact_mod_cast h) (by exact_mod_cast hm))
    have hd : (0 : ℚ) ≤ (spec_keyword_hits text : ℚ)
        / (max 1 (wordCount text) : ℕ) :=
      div_nonneg (Nat.cast_nonneg _) (Nat.cast_nonneg _)
    linarith
  constructor
  · simp only [estimate_output_tokens_per_iteration, spec_output_tokens]
    rw [multiplier_eq,
      show CODING_KEYWORDS.countP (fun kw => seqContains (pyLower text) kw)
        = spec_keyword_hits text from rfl,
      pyInt_eq_floor _ hq]
  · simp only [estimate_output_tokens_per_iteration]
    rw [multiplier_eq,
      show CODING_KEYWORDS.countP (fun kw => seqContains (pyLower text) kw)
        = spec_keyword_hits text from rfl,
      pyInt_eq_floor _ hq]
    exact Int.floor_nonneg.mpr hq

/-- Witness for C4 at the prompt "hi" and prompt-token count 1. -/
theorem estimate_output_tokens_matches_spec_witness :
    0 ≤ (1 : ℤ) ∧
      (estimate_output_tokens_per_iteration ("hi".toList) 1
          = spec_output_tokens ("hi".toList) 1 ∧
        0 ≤ estimate_output_tokens_per_iteration ("hi".toList) 1) :=
  ⟨by decide, estimate_output_tokens_matches_spec ("hi".toList) 1 (by decide)⟩

/-- C9: The blended estimator is the truncating integer average of the
character heuristic `max(1, ceil(len/4))` and the word heuristic
`max(1, floor(word_count/0.75))`. -/
theorem blended_estimate_matches_spec (text : List Char) :
    estimate_input_tokens text = spec_blended_estimate text := by
  have hw : estimate_tokens_by_words text = spec_word_estimate text := by
    unfold estimate_tokens_by_words spec_word_estimate
    rw [pyInt_eq_floor _ (div_nonneg (Nat.cast_nonneg _) (by norm_num))]
  have hc : estimate_tokens_by_chars text = spec_char_estimate text := rfl
  have h1 : 1 ≤ spec_char_estimate text := le_max_left 1 _
  have h2 : 1 ≤ spec_word_estimate text := le_max_left 1 _
  unfold estimate_input_tokens spec_blended_estimate
  rw [hc, hw, pyInt_eq_floor]
  · exact_mod_cast Rat.floor_intCast_div_natCast
      (spec_char_estimate text + spec_word_estimate text) 2
  · exact div_nonneg
      (by exact_mod_cast (by omega : (0 : ℤ)
        ≤ spec_char_estimate text + spec_word_estimate text))
      (by norm_num)

/-- C7: For a model present in the price table (whose rates are non-negative),
`calculate_cost` never decreases when the input-token count increases with the
output count held fixed, or when the output-token count increases with the
input count held fixed. -/
theorem calculate_cost_monotone (m : String) (p : Price) (i i2 o o2 : ℤ)
    (hm : PRICING m = some p) (hi : i ≤ i2) (ho : o ≤ o2) :
    calculate_cost i o m ≤ calculate_cost i2 o m ∧
      calculate_cost i o m ≤ calculate_cost i o2 m := by
  rcases PRICING_cases m p hm with rfl | rfl
  · simp only [calculate_cost_claude_closed]
    constructor
    · exact (div_le_div_iff_of_pos_right (by norm_num)).mpr
        (Int.cast_le.mpr (by nlinarith))
    · exact (div_le_div_iff_of_pos_right (by norm_num)).mpr
        (Int.cast_le.mpr (by nlinarith))
  · simp only [calculate_cost_gemini_closed]
    constructor
    · exact (div_le_div_iff_of_pos_right (by norm_num)).mpr
        (Int.cast_le.mpr (by nlinarith))
    · exact (div_le_div_iff_of_pos_right (by norm_num)).mpr
        (Int.cast_le.mpr (by nlinarith))

/-- Witness for C7: model "claude", input tokens 0 ≤ 1, output tokens 0 ≤ 1. -/
theorem calculate_cost_monotone_witness :
    (PRICING "claude" = some ⟨3, 15⟩ ∧ (0 : ℤ) ≤ 1 ∧ (0 : ℤ) ≤ 1) ∧
      (calculate_cost 0 0 "claude" ≤ calculate_cost 1 0 "claude" ∧
        calculate_cost 0 0 "claude" ≤ calculate_cost 0 1 "claude") :=
  ⟨⟨rfl, by decide, by decide⟩,
    calculate_cost_monotone "claude" ⟨3, 15⟩ 0 1 0 1 rfl (by decide) (by decide)⟩

/-- C5: Every `CostResult` of a run satisfies
`total_input_tokens = input_tokens_per_prompt * iterations` and
`total_output_tokens = output_tokens_per_iteration * iterations`, and any two
records of the same run agree on every field except possibly the cost. -/
theorem runSession_results_agree (r : ℚ) (models : List String)
    (text : List Char) (m₁ m₂ : String) (res₁ res₂ : CostResult)
    (h₁ : (m₁, res₁) ∈ runSession r models text)
    (h₂ : (m₂, res₂) ∈ runSession r models text) :
    res₁.total_input_tokens
        = res₁.input_tokens_per_prompt * res₁.estimated_iterations ∧
      res₁.total_output_tokens
        = res₁.output_tokens_per_iteration * res₁.estimated_iterations ∧
      res₁.estimated_iterations = res₂.estimated_iterations ∧
      res₁.input_tokens_per_prompt = res₂.input_tokens_per_prompt ∧
      res₁.total_input_tokens = res₂.total_input_tokens ∧
      res₁.output_tokens_per_iteration = res₂.output_tokens_per_iteration ∧
      res₁.total_output_tokens = res₂.total_output_tokens := by
  simp only [runSession, List.mem_map] at h₁ h₂
  obtain ⟨a₁, -, ha₁⟩ := h₁
  obtain ⟨a₂, -, ha₂⟩ := h₂
  injection ha₁ with hm₁ hr₁
  injection ha₂ with hm₂ hr₂
  subst hr₁
  subst hr₂
  exact ⟨rfl, rfl, rfl, rfl, rfl, rfl, rfl⟩

/-- The first entry of a concrete one-model run, used by the C5 witness. -/
def demoEntry : String × CostResult :=
  (runSession 1 ["claude"] ("hi".toList)).headI

/-- Witness for C5 at the run with jitter sample 1, model list `["claude"]`
and prompt "hi". -/
theorem runSession_results_agree_witness :
    (demoEntry ∈ runSession 1 ["claude"] ("hi".toList)) ∧
      (demoEntry.2.total_input_tokens
          = demoEntry.2.input_tokens_per_prompt * demoEntry.2.estimated_iterations ∧
        demoEntry.2.total_output_tokens
          = demoEntry.2.output_tokens_per_iteration * demoEntry.2.estimated_iterations ∧
        demoEntry.2.estimated_iterations = demoEntry.2.estimated_iterations ∧
        demoEntry.2.input_tokens_per_prompt = demoEntry.2.input_tokens_per_prompt ∧
        demoEntry.2.total_input_tokens = demoEntry.2.total_input_tokens ∧
        demoEntry.2.output_tokens_per_iteration
          = demoEntry.2.output_tokens_per_iteration ∧
        demoEntry.2.total_output_tokens = demoEntry.2.total_output_tokens) :=
  have hmem : demoEntry ∈ runSession 1 ["claude"] ("hi".toList) := List.Mem.head _
  ⟨hmem, runSession_results_agree 1 ["claude"] ("hi".toList)
    demoEntry.1 demoEntry.1 demoEntry.2 demoEntry.2 hmem hmem⟩

end TokenCalculator
